import Mathlib

/-!
Shallow embedding of the RAG-Study-Guide retrieval pipeline.

The embedded code is `src/main_rag.py` (class `RAGPipeline`) together with
`src/text_chunks.py`.  Numeric scores (float distances and similarities in the
Python source) are embedded as rationals (`Rat`); fallible calls into the
vector-search backend are embedded as `Except`-valued functions; the mutable
per-instance pipeline state is embedded as an explicit record threaded through
`processDocument`.
-/

namespace RAGStudyGuide

/-- A search-result document as handed back by the vector store; the code only
reads its `page_content` field. -/
structure Doc where
  page_content : String
deriving DecidableEq, Repr

/-- The vector-store object (`self.vector_store`, a FAISS store in the source).
Its two query methods may raise, which is embedded as `Except Unit`:
`similarity_search_with_score query k` yields `(doc, distance)` pairs and
`similarity_search query k` yields bare documents. -/
structure SearchBackend where
  similarity_search_with_score : String → Nat → Except Unit (List (Doc × Rat))
  similarity_search : String → Nat → Except Unit (List Doc)

/-- Distance-to-similarity conversion from `main_rag.py` line 173:
`similarity = 1 - (score / 2.0)`. -/
def similarityOfDistance (score : Rat) : Rat :=
  1 - score / 2

/-- The record appended to `relevant_chunks` in the filtering loop
(`main_rag.py` lines 176-180). -/
structure RelevantChunk where
  content : String
  similarity : Rat
  distance : Rat
deriving DecidableEq, Repr

/-- The conversion step of the loop in `main_rag.py` lines 169-180: each
`(doc, score)` pair becomes a record with the derived similarity. -/
def toRelevant (results : List (Doc × Rat)) : List RelevantChunk :=
  results.map fun p =>
    { content := p.1.page_content
      similarity := similarityOfDistance p.2
      distance := p.2 }

/-- The filtering step of the same loop: keep a candidate exactly when
`similarity >= similarity_threshold` (`main_rag.py` line 175). -/
def keepAboveThreshold (similarity_threshold : Rat) (results : List (Doc × Rat)) :
    List RelevantChunk :=
  (toRelevant results).filter fun c => decide (similarity_threshold ≤ c.similarity)

/-- The ordering used by `relevant_chunks.sort(key=..., reverse=True)`:
`a` may come before `b` exactly when the similarity of `a` is at least that
of `b`. -/
def simGE (a b : RelevantChunk) : Prop :=
  b.similarity ≤ a.similarity

instance : DecidableRel simGE := fun a b =>
  inferInstanceAs (Decidable (b.similarity ≤ a.similarity))

instance : IsTotal RelevantChunk simGE :=
  ⟨fun a b => le_total b.similarity a.similarity⟩

instance : IsTrans RelevantChunk simGE :=
  ⟨fun _ _ _ hab hbc => le_trans hbc hab⟩

/-- The sort at `main_rag.py` line 183.  Python `list.sort` with
`reverse=True` is the stable descending sort by the key; `insertionSort`
over the non-strict relation `simGE` realizes exactly that stable sort
(an element is inserted before precisely the already-placed elements of
strictly smaller similarity). -/
def sortBySimilarityDesc (l : List RelevantChunk) : List RelevantChunk :=
  l.insertionSort simGE

/-- The fallback in the `except` clause of `_get_all_relevant_content`
(`main_rag.py` lines 202-213): a bare `similarity_search(query, k=10)`,
and on a second failure an empty list.  It never raises. -/
def fallbackSearch (vs : SearchBackend) (query : String) : Except String (List String) :=
  match vs.similarity_search query 10 with
  | .ok results => .ok (results.map (·.page_content))
  | .error _ => .ok []

/-- The selector `RAGPipeline._get_all_relevant_content` (`main_rag.py`
lines 131-213).  `store` is `self.vector_store`, `chunks` is `self.chunks`.
The `ValueError` raised when the store is uninitialized is the `.error`
value; exceptions escaping the `try` body (the scored search, or the
recursive retry) are caught and answered by `fallbackSearch`.  The retry
recursion at line 195 passes the literal threshold `0.3 = 3/10`. -/
def getAllRelevantContent (store : Option SearchBackend) (chunks : List String)
    (query : String) (similarity_threshold : Rat) : Except String (List String) :=
  match store with
  | none => .error "Vector store not initialized"
  | some vs =>
    let k := min chunks.length 100
    match vs.similarity_search_with_score query k with
    | .error _ => fallbackSearch vs query
    | .ok results =>
      let relevant_chunks := sortBySimilarityDesc (keepAboveThreshold similarity_threshold results)
      if h : relevant_chunks.length < 3 ∧ (3 : Rat) / 10 < similarity_threshold then
        match getAllRelevantContent (some vs) chunks query (3 / 10) with
        | .ok r => .ok r
        | .error _ => fallbackSearch vs query
      else
        .ok (relevant_chunks.map (·.content))
termination_by (if (3 : Rat) / 10 < similarity_threshold then 1 else 0 : Nat)
decreasing_by
  simp only [h.2, if_pos, lt_self_iff_false, if_false]
  exact Nat.zero_lt_one

/-- One pass of the selector body with the retry branch removed: search,
convert, filter, sort, return the contents.  `getAllRelevantContent` at the
floor threshold `3/10` is proved equal to this (the retry guard is then
false), which is how the recursion bottoms out. -/
def selectOnce (vs : SearchBackend) (chunks : List String) (query : String)
    (similarity_threshold : Rat) : Except String (List String) :=
  match vs.similarity_search_with_score query (min chunks.length 100) with
  | .error _ => fallbackSearch vs query
  | .ok results =>
      .ok ((sortBySimilarityDesc (keepAboveThreshold similarity_threshold results)).map
        (·.content))

theorem fallbackSearch_isOk (vs : SearchBackend) (query : String) :
    ∃ r, fallbackSearch vs query = .ok r := by
  unfold fallbackSearch
  cases vs.similarity_search query 10 <;> exact ⟨_, rfl⟩

theorem selectOnce_isOk (vs : SearchBackend) (chunks : List String) (query : String)
    (t : Rat) : ∃ r, selectOnce vs chunks query t = .ok r := by
  unfold selectOnce
  cases vs.similarity_search_with_score query (min chunks.length 100) with
  | error e => exact fallbackSearch_isOk vs query
  | ok results => exact ⟨_, rfl⟩

theorem getAll_none (chunks : List String) (query : String) (t : Rat) :
    getAllRelevantContent none chunks query t = .error "Vector store not initialized" := by
  rw [getAllRelevantContent]

theorem getAll_floor (vs : SearchBackend) (chunks : List String) (query : String) :
    getAllRelevantContent (some vs) chunks query (3 / 10) =
      selectOnce vs chunks query (3 / 10) := by
  rw [getAllRelevantContent]
  unfold selectOnce
  cases hs : vs.similarity_search_with_score query (min chunks.length 100) with
  | error e => rfl
  | ok results =>
    dsimp only
    rw [dif_neg]
    rintro ⟨-, hlt⟩
    exact lt_irrefl _ hlt

theorem getAll_some_eq (vs : SearchBackend) (chunks : List String) (query : String)
    (t : Rat) :
    getAllRelevantContent (some vs) chunks query t =
      match vs.similarity_search_with_score query (min chunks.length 100) with
      | .error _ => fallbackSearch vs query
      | .ok results =>
        if (sortBySimilarityDesc (keepAboveThreshold t results)).length < 3 ∧ (3 : Rat) / 10 < t
        then selectOnce vs chunks query (3 / 10)
        else .ok ((sortBySimilarityDesc (keepAboveThreshold t results)).map (·.content)) := by
  rw [getAllRelevantContent]
  cases hs : vs.similarity_search_with_score query (min chunks.length 100) with
  | error e => rfl
  | ok results =>
    dsimp only
    by_cases hc :
        (sortBySimilarityDesc (keepAboveThreshold t results)).length < 3 ∧ (3 : Rat) / 10 < t
    · rw [dif_pos hc, if_pos hc, getAll_floor]
      obtain ⟨r, hr⟩ := selectOnce_isOk vs chunks query (3 / 10)
      rw [hr]
    · rw [dif_neg hc, if_neg hc]

theorem getAll_some_isOk (vs : SearchBackend) (chunks : List String) (query : String)
    (t : Rat) : ∃ r, getAllRelevantContent (some vs) chunks query t = .ok r := by
  rw [getAll_some_eq]
  cases vs.similarity_search_with_score query (min chunks.length 100) with
  | error e => exact fallbackSearch_isOk vs query
  | ok results =>
    dsimp only
    by_cases hc :
        (sortBySimilarityDesc (keepAboveThreshold t results)).length < 3 ∧ (3 : Rat) / 10 < t
    · rw [if_pos hc]
      exact selectOnce_isOk vs chunks query (3 / 10)
    · rw [if_neg hc]
      exact ⟨_, rfl⟩

theorem sortBySimilarityDesc_perm (l : List RelevantChunk) :
    (sortBySimilarityDesc l).Perm l :=
  List.perm_insertionSort simGE l

theorem sortBySimilarityDesc_length (l : List RelevantChunk) :
    (sortBySimilarityDesc l).length = l.length :=
  (sortBySimilarityDesc_perm l).length_eq

theorem sortBySimilarityDesc_sorted (l : List RelevantChunk) :
    (sortBySimilarityDesc l).Sorted simGE :=
  List.sorted_insertionSort simGE l

theorem filter_orderedInsert_simEq (v : Rat) (a : RelevantChunk) (l : List RelevantChunk) :
    ((l.orderedInsert simGE a).filter fun c => decide (c.similarity = v)) =
      if a.similarity = v then
        a :: l.filter fun c => decide (c.similarity = v)
      else
        l.filter fun c => decide (c.similarity = v) := by
  induction l with
  | nil =>
    by_cases ha : a.similarity = v <;> simp [List.orderedInsert, List.filter, ha]
  | cons b l ih =>
    rw [List.orderedInsert]
    by_cases hr : simGE a b
    · rw [if_pos hr]
      by_cases ha : a.similarity = v <;> simp [List.filter_cons, ha]
    · rw [if_neg hr]
      have hab : a.similarity < b.similarity := not_le.mp hr
      by_cases ha : a.similarity = v
      · have hb : ¬(b.similarity = v) := by
          rw [← ha]
          exact ne_of_gt hab
        simp [List.filter_cons, ha, hb, ih]
      · by_cases hb : b.similarity = v <;> simp [List.filter_cons, ha, hb, ih]

theorem filter_sortBySimilarityDesc_simEq (v : Rat) (l : List RelevantChunk) :
    ((sortBySimilarityDesc l).filter fun c => decide (c.similarity = v)) =
      l.filter fun c => decide (c.similarity = v) := by
  unfold sortBySimilarityDesc
  induction l with
  | nil => rfl
  | cons a l ih =>
    rw [List.insertionSort, filter_orderedInsert_simEq]
    by_cases ha : a.similarity = v <;> simp [List.filter_cons, ha, ih]

/-- Position of the last admissible cut within the first `size` characters:
the largest `p` with `1 ≤ p ≤ size` such that the separator `sep` ends at
position `p` of `l`. -/
def lastSepCut (sep : List Char) (size : Nat) (l : List Char) : Option Nat :=
  ((List.range (size + 1)).filter fun p =>
    decide (0 < p) && sep.isSuffixOf (l.take p)).getLast?

/-- Modelled from the spec: choice of a split boundary for the Chunker of
spec section 4.1.  Splitting prefers boundaries in priority order paragraph
break, line break, space; it cuts at the latest such boundary within the
first `size` characters and only falls back to the arbitrary position
`size` when no separator boundary fits. -/
def cutPoint (size : Nat) (l : List Char) : Nat :=
  match lastSepCut [Char.ofNat 10, Char.ofNat 10] size l with
  | some p => p
  | none =>
    match lastSepCut [Char.ofNat 10] size l with
    | some p => p
    | none =>
      match lastSepCut [' '] size l with
      | some p => p
      | none => size

/-- Modelled from the spec: the chunking loop of the Chunker (spec section
4.1).  While more than `size` characters remain, emit the piece up to the
preferred cut and continue `overlap` characters before the cut so that
adjacent chunks share `overlap` characters of context; the final short
remainder is emitted as the last chunk.  The fuel argument only bounds the
recursion; it starts at the text length and cannot run out, because each
step drops at least one character. -/
def chunkCharsGo (size overlap : Nat) : Nat → List Char → List (List Char)
  | 0, l => [l]
  | fuel + 1, l =>
    if l.length ≤ size then
      [l]
    else
      let cut := cutPoint size l
      let step := max 1 (cut - overlap)
      l.take cut :: chunkCharsGo size overlap fuel (l.drop step)

/-- Modelled from the spec: `chunk(text, size, overlap)` of spec section 4.1. -/
def chunkChars (size overlap : Nat) (l : List Char) : List (List Char) :=
  chunkCharsGo size overlap l.length l

/-- Modelled from the spec: `get_text_chunks` (`src/text_chunks.py` lines
3-21) delegates to `langchain_text_splitters.RecursiveCharacterTextSplitter`
with `chunk_size=1000`, `chunk_overlap=100` and separator priority paragraph
break, line break, space, character — an external library whose code is not
part of this repository.  The splitter produces no chunks for the empty
string; the EmptyInput error condition is then raised by the pipeline
(`main_rag.py` lines 76-77), not by the chunker itself. -/
def get_text_chunks (text : String) : List String :=
  if text = "" then []
  else (chunkChars 1000 100 text.toList).map String.mk

/-- Result record of the external extraction collaborator
`extract_pdf_to_text_file(file_path, folder)` (imported from
`pdf_extracter`, outside this repository); the pipeline consumes the
fields `success`, `text` and `output_file` (`main_rag.py` lines 62-67,
106). -/
structure ExtractionResult where
  success : Bool
  text : String
  output_file : String
deriving DecidableEq, Repr

/-- Per-instance mutable state of `RAGPipeline`: `self.vector_store`,
`self.chunks`, `self.raw_text`. -/
structure PipelineState where
  vector_store : Option SearchBackend
  chunks : List String
  raw_text : String

/-- The state set up by `RAGPipeline.__init__` (`main_rag.py` lines 26-29). -/
def initState : PipelineState :=
  { vector_store := none, chunks := [], raw_text := "" }

/-- The result dict returned by a successful `process_document`
(`main_rag.py` lines 98-107). -/
structure ProcessResult where
  success : Bool
  vector_store : Option SearchBackend
  chunks : List String
  relevant_chunks : List String
  total_chunks : Nat
  relevant_count : Nat
  topics : String
  extracted_text_file : String

/-- `RAGPipeline.process_document` (`main_rag.py` lines 32-113).  The two
external collaborators are parameters: `extract_pdf_to_text_file` (from
`pdf_extracter`) and `create_vector_store` (from `src/embedding.py`, which
re-raises any embedding or FAISS failure, embedded as `Except String`).
The mutable `self` state is threaded explicitly: the returned state
reflects the assignments to `self.raw_text`, `self.chunks` and
`self.vector_store` executed before the call returned or raised.  The
`except` clause at lines 109-113 re-raises every failure wrapped in the
message prefix `RAG Pipeline failed: `. -/
def processDocument
    (extract_pdf_to_text_file : String → String → ExtractionResult)
    (create_vector_store : List String → Option String → Except String SearchBackend)
    (st : PipelineState) (file_path : String) (topics : String)
    (extracted_text_folder : String) (persist_directory : Option String)
    (similarity_threshold : Rat) : PipelineState × Except String ProcessResult :=
  let extraction_result := extract_pdf_to_text_file file_path extracted_text_folder
  if extraction_result.success = false then
    (st, .error "RAG Pipeline failed: Failed to extract text from PDF")
  else
    let st1 : PipelineState := { st with raw_text := extraction_result.text }
    let st2 : PipelineState := { st1 with chunks := get_text_chunks st1.raw_text }
    if st2.chunks = [] then
      (st2, .error "RAG Pipeline failed: No text chunks created")
    else
      match create_vector_store st2.chunks persist_directory with
      | .error e => (st2, .error ("RAG Pipeline failed: " ++ e))
      | .ok vs =>
        let st3 : PipelineState := { st2 with vector_store := some vs }
        match getAllRelevantContent st3.vector_store st3.chunks topics similarity_threshold with
        | .error e => (st3, .error ("RAG Pipeline failed: " ++ e))
        | .ok relevant_chunks =>
          (st3, .ok
            { success := true
              vector_store := st3.vector_store
              chunks := st3.chunks
              relevant_chunks := relevant_chunks
              total_chunks := st3.chunks.length
              relevant_count := relevant_chunks.length
              topics := topics
              extracted_text_file := extraction_result.output_file })

/-- `RAGPipeline.query_vector_store` (`main_rag.py` lines 217-221). -/
def query_vector_store (st : PipelineState) (query : String) (threshold : Rat) :
    Except String (List String) :=
  getAllRelevantContent st.vector_store st.chunks query threshold

theorem getAll_noretry (vs : SearchBackend) (chunks : List String) (query : String)
    (t : Rat) (results : List (Doc × Rat))
    (hs : vs.similarity_search_with_score query (min chunks.length 100) = .ok results)
    (hnoretry : ¬((keepAboveThreshold t results).length < 3 ∧ (3 : Rat) / 10 < t)) :
    getAllRelevantContent (some vs) chunks query t =
      .ok ((sortBySimilarityDesc (keepAboveThreshold t results)).map (·.content)) := by
  have hnr :
      ¬((sortBySimilarityDesc (keepAboveThreshold t results)).length < 3 ∧
        (3 : Rat) / 10 < t) := by
    rw [sortBySimilarityDesc_length]
    exact hnoretry
  rw [getAll_some_eq, hs]
  dsimp only
  rw [if_neg hnr]

/-- Concrete scored candidates used by the witnesses: distances 1/10, 1 and
19/10, mirroring the end-to-end example of spec section 8. -/
def testDocs : List (Doc × Rat) :=
  [(⟨"A"⟩, 1 / 10), (⟨"B"⟩, 1), (⟨"C"⟩, 19 / 10)]

/-- Concrete backend whose scored search always succeeds with `testDocs`. -/
def testBackend : SearchBackend :=
  { similarity_search_with_score := fun _ _ => .ok testDocs
    similarity_search := fun _ _ => .ok [⟨"A"⟩, ⟨"B"⟩, ⟨"C"⟩] }

/-- Concrete backend whose scored search raises but whose plain search
succeeds. -/
def errBackend : SearchBackend :=
  { similarity_search_with_score := fun _ _ => .error ()
    similarity_search := fun _ _ => .ok [⟨"F1"⟩, ⟨"F2"⟩] }

/-- Concrete backend whose scored search and plain search both raise. -/
def deadBackend : SearchBackend :=
  { similarity_search_with_score := fun _ _ => .error ()
    similarity_search := fun _ _ => .error () }

/-- C1: for every query and threshold, when the scored search over the
k = min(chunks_count, 100) nearest neighbors succeeds and the relaxation
retry does not fire, the selector returns exactly the contents of the
candidates whose derived similarity 1 - d/2 is at least the threshold and
no others: the returned value is the sorted contents of the filtered
candidate set, a permutation of the contents of that set. -/
theorem spec_c1 (vs : SearchBackend) (chunks : List String) (query : String) (t : Rat)
    (results : List (Doc × Rat))
    (hs : vs.similarity_search_with_score query (min chunks.length 100) = .ok results)
    (hnoretry : ¬((keepAboveThreshold t results).length < 3 ∧ (3 : Rat) / 10 < t)) :
    getAllRelevantContent (some vs) chunks query t =
      .ok ((sortBySimilarityDesc (keepAboveThreshold t results)).map (·.content)) ∧
    ((sortBySimilarityDesc (keepAboveThreshold t results)).map (·.content)).Perm
      ((keepAboveThreshold t results).map (·.content)) :=
  ⟨getAll_noretry vs chunks query t results hs hnoretry,
   (sortBySimilarityDesc_perm (keepAboveThreshold t results)).map (·.content)⟩

theorem spec_c1_witness :
    getAllRelevantContent (some testBackend) ["A", "B", "C"] "q" (3 / 10) =
      .ok ((sortBySimilarityDesc (keepAboveThreshold (3 / 10) testDocs)).map (·.content)) ∧
    ((sortBySimilarityDesc (keepAboveThreshold (3 / 10) testDocs)).map (·.content)).Perm
      ((keepAboveThreshold (3 / 10) testDocs).map (·.content)) :=
  spec_c1 testBackend ["A", "B", "C"] "q" (3 / 10) testDocs rfl (by simp)

/-- C2: under the same success and no-retry hypotheses, the sequence
returned by the selector is sorted by similarity in descending order — for
every adjacent pair (i, i+1), similarity at i+1 is at most similarity at i
— and for each similarity value the candidates carrying it appear in their
original (ascending-distance) order from the search, so the sort is stable
and deterministic. -/
theorem spec_c2 (vs : SearchBackend) (chunks : List String) (query : String) (t : Rat)
    (results : List (Doc × Rat))
    (hs : vs.similarity_search_with_score query (min chunks.length 100) = .ok results)
    (hnoretry : ¬((keepAboveThreshold t results).length < 3 ∧ (3 : Rat) / 10 < t)) :
    getAllRelevantContent (some vs) chunks query t =
      .ok ((sortBySimilarityDesc (keepAboveThreshold t results)).map (·.content)) ∧
    (∀ i : Nat, ∀ hi : i + 1 < (sortBySimilarityDesc (keepAboveThreshold t results)).length,
      ((sortBySimilarityDesc (keepAboveThreshold t results)).get ⟨i + 1, hi⟩).similarity ≤
        ((sortBySimilarityDesc (keepAboveThreshold t results)).get
          ⟨i, Nat.lt_of_succ_lt hi⟩).similarity) ∧
    (∀ v : Rat,
      ((sortBySimilarityDesc (keepAboveThreshold t results)).filter fun c =>
        decide (c.similarity = v)) =
      ((keepAboveThreshold t results).filter fun c => decide (c.similarity = v))) := by
  refine ⟨getAll_noretry vs chunks query t results hs hnoretry, fun i hi => ?_,
    fun v => filter_sortBySimilarityDesc_simEq v (keepAboveThreshold t results)⟩
  exact (sortBySimilarityDesc_sorted (keepAboveThreshold t results)).rel_get_of_lt
    (Nat.lt_succ_self i)

theorem spec_c2_witness :
    getAllRelevantContent (some testBackend) ["A", "B", "C"] "topic" (3 / 10) =
      .ok ((sortBySimilarityDesc (keepAboveThreshold (3 / 10) testDocs)).map (·.content)) ∧
    (∀ i : Nat,
      ∀ hi : i + 1 < (sortBySimilarityDesc (keepAboveThreshold (3 / 10) testDocs)).length,
      ((sortBySimilarityDesc (keepAboveThreshold (3 / 10) testDocs)).get ⟨i + 1, hi⟩).similarity ≤
        ((sortBySimilarityDesc (keepAboveThreshold (3 / 10) testDocs)).get
          ⟨i, Nat.lt_of_succ_lt hi⟩).similarity) ∧
    (∀ v : Rat,
      ((sortBySimilarityDesc (keepAboveThreshold (3 / 10) testDocs)).filter fun c =>
        decide (c.similarity = v)) =
      ((keepAboveThreshold (3 / 10) testDocs).filter fun c => decide (c.similarity = v))) :=
  spec_c2 testBackend ["A", "B", "C"] "topic" (3 / 10) testDocs rfl (by simp)

/-- C3: the threshold-relaxation retry fires only when fewer than 3
candidates survive filtering and the threshold just tried is strictly
greater than 3/10; the retry re-runs selection with threshold exactly 3/10,
and at threshold 3/10 the guard is false, so the recursive call is a plain
single pass (`selectOnce`): the recursion occurs at most once and the depth
is at most 2, never an unbounded loop. -/
theorem spec_c3 (vs : SearchBackend) (chunks : List String) (query : String) (t : Rat)
    (results : List (Doc × Rat)) :
    (vs.similarity_search_with_score query (min chunks.length 100) = .ok results →
      ((keepAboveThreshold t results).length < 3 ∧ (3 : Rat) / 10 < t →
        getAllRelevantContent (some vs) chunks query t =
          selectOnce vs chunks query (3 / 10)) ∧
      (¬((keepAboveThreshold t results).length < 3 ∧ (3 : Rat) / 10 < t) →
        getAllRelevantContent (some vs) chunks query t =
          .ok ((sortBySimilarityDesc (keepAboveThreshold t results)).map (·.content)))) ∧
    getAllRelevantContent (some vs) chunks query (3 / 10) =
      selectOnce vs chunks query (3 / 10) := by
  refine ⟨fun hs => ⟨fun hc => ?_, fun hc => getAll_noretry vs chunks query t results hs hc⟩,
    getAll_floor vs chunks query⟩
  have hc2 :
      (sortBySimilarityDesc (keepAboveThreshold t results)).length < 3 ∧ (3 : Rat) / 10 < t := by
    rw [sortBySimilarityDesc_length]
    exact hc
  rw [getAll_some_eq, hs]
  dsimp only
  rw [if_pos hc2]

theorem spec_c3_witness :
    getAllRelevantContent (some testBackend) ["A", "B", "C"] "q" (1 / 2) =
      selectOnce testBackend ["A", "B", "C"] "q" (3 / 10) ∧
    getAllRelevantContent (some testBackend) ["A", "B", "C"] "q" (3 / 10) =
      selectOnce testBackend ["A", "B", "C"] "q" (3 / 10) :=
  ⟨((spec_c3 testBackend ["A", "B", "C"] "q" (1 / 2) testDocs).1 rfl).1
    (by norm_num [keepAboveThreshold, toRelevant, testDocs, similarityOfDistance, List.filter]),
   (spec_c3 testBackend ["A", "B", "C"] "q" (1 / 2) testDocs).2⟩

/-- C4: if the scored similarity search raises any error, the selector
catches it and retries once with a plain top-10 nearest-neighbor search
with no distance filtering, returning those contents; if that retry also
raises it returns the empty sequence; and with an initialized store the
selector always returns a value, never propagating a search failure as an
exception to its caller. -/
theorem spec_c4 (vs : SearchBackend) (chunks : List String) (query : String) (t : Rat) :
    (∀ e, vs.similarity_search_with_score query (min chunks.length 100) = .error e →
      getAllRelevantContent (some vs) chunks query t = fallbackSearch vs query) ∧
    (∀ docs, vs.similarity_search query 10 = .ok docs →
      fallbackSearch vs query = .ok (docs.map (·.page_content))) ∧
    (∀ e, vs.similarity_search query 10 = .error e →
      fallbackSearch vs query = .ok []) ∧
    (∃ r, getAllRelevantContent (some vs) chunks query t = .ok r) := by
  refine ⟨fun e he => ?_, fun docs hd => ?_, fun e he => ?_, getAll_some_isOk vs chunks query t⟩
  · rw [getAll_some_eq, he]
  · unfold fallbackSearch
    rw [hd]
  · unfold fallbackSearch
    rw [he]

theorem spec_c4_witness :
    getAllRelevantContent (some errBackend) ["x"] "q" (1 / 2) = fallbackSearch errBackend "q" ∧
    fallbackSearch errBackend "q" = .ok ["F1", "F2"] ∧
    fallbackSearch deadBackend "q" = .ok [] ∧
    (∃ r, getAllRelevantContent (some deadBackend) ["x"] "q" (1 / 2) = .ok r) :=
  ⟨(spec_c4 errBackend ["x"] "q" (1 / 2)).1 () rfl,
   (spec_c4 errBackend ["x"] "q" (1 / 2)).2.1 [⟨"F1"⟩, ⟨"F2"⟩] rfl,
   (spec_c4 deadBackend ["x"] "q" (1 / 2)).2.2.1 () rfl,
   (spec_c4 deadBackend ["x"] "q" (1 / 2)).2.2.2⟩

/-- C5: the similarity derived from a raw distance d is exactly 1 - d/2, a
deterministic pure function of the distance alone (every candidate is
converted by the same function); it is strictly monotonically decreasing in
d, and no clamping is applied: a distance below 0 yields a similarity above
1 and a distance above 2 yields a negative similarity. -/
theorem spec_c5 :
    (∀ d : Rat, similarityOfDistance d = 1 - d / 2) ∧
    (∀ d₁ d₂ : Rat, d₁ < d₂ → similarityOfDistance d₂ < similarityOfDistance d₁) ∧
    (∀ d : Rat, d < 0 → 1 < similarityOfDistance d) ∧
    (∀ d : Rat, 2 < d → similarityOfDistance d < 0) ∧
    (∀ results : List (Doc × Rat), toRelevant results =
      results.map fun p => ⟨p.1.page_content, similarityOfDistance p.2, p.2⟩) := by
  refine ⟨fun d => rfl, fun d₁ d₂ h => ?_, fun d h => ?_, fun d h => ?_, fun results => rfl⟩
  all_goals unfold similarityOfDistance
  · linarith
  · linarith
  · linarith

theorem spec_c5_witness :
    similarityOfDistance 1 < similarityOfDistance 0 ∧
    1 < similarityOfDistance (-1) ∧
    similarityOfDistance 3 < 0 :=
  ⟨spec_c5.2.1 0 1 (by norm_num), spec_c5.2.2.1 (-1) (by norm_num),
   spec_c5.2.2.2.1 3 (by norm_num)⟩

theorem chunkCharsGo_ne_nil (size overlap fuel : Nat) (l : List Char) :
    chunkCharsGo size overlap fuel l ≠ [] := by
  cases fuel with
  | zero => simp [chunkCharsGo]
  | succ fuel =>
    rw [chunkCharsGo]
    by_cases h : l.length ≤ size
    · simp [h]
    · simp [h]

theorem keepAboveThreshold_length_le (t : Rat) (results : List (Doc × Rat)) :
    (keepAboveThreshold t results).length ≤ results.length := by
  unfold keepAboveThreshold
  have h1 := List.length_filter_le (fun c => decide (t ≤ c.similarity)) (toRelevant results)
  have h2 : (toRelevant results).length = results.length := by
    simp [toRelevant]
  omega

/-- Extraction collaborator that succeeds but extracts the empty string. -/
def extractEmpty : String → String → ExtractionResult := fun _ _ => ⟨true, "", "empty.txt"⟩

/-- Extraction collaborator that reports failure. -/
def extractFailW : String → String → ExtractionResult := fun _ _ => ⟨false, "ignored", "o.txt"⟩

/-- Store builder that always fails; used where the build must be
unreachable or failing. -/
def buildNone : List String → Option String → Except String SearchBackend :=
  fun _ _ => .error "unused"

/-- C6: the chunking operation returns at least one chunk for every
non-empty input text; on the empty string it yields zero chunks and the
pipeline then fails with the EmptyInput-equivalent error
"No text chunks created". -/
theorem spec_c6 :
    (∀ text : String, text ≠ "" → 1 ≤ (get_text_chunks text).length) ∧
    get_text_chunks "" = [] ∧
    (∀ (extract : String → String → ExtractionResult)
      (create : List String → Option String → Except String SearchBackend)
      (st : PipelineState) (fp topics folder : String) (persist : Option String) (t : Rat),
      (extract fp folder).success = true →
      (extract fp folder).text = "" →
      (processDocument extract create st fp topics folder persist t).2 =
        .error "RAG Pipeline failed: No text chunks created") := by
  refine ⟨fun text h => ?_, rfl,
    fun extract create st fp topics folder persist t hs ht => ?_⟩
  · have hne : chunkChars 1000 100 text.toList ≠ [] :=
      chunkCharsGo_ne_nil 1000 100 text.toList.length text.toList
    unfold get_text_chunks
    rw [if_neg h]
    have hm : (chunkChars 1000 100 text.toList).map String.mk ≠ [] := by
      simpa using hne
    exact List.length_pos.mpr hm
  · simp [processDocument, hs, ht, get_text_chunks]

theorem spec_c6_witness :
    1 ≤ (get_text_chunks "hello").length ∧
    (processDocument extractEmpty buildNone initState "f.pdf" "topics" "./e" none (1 / 2)).2 =
      .error "RAG Pipeline failed: No text chunks created" :=
  ⟨spec_c6.1 "hello" (by decide),
   spec_c6.2.2 extractEmpty buildNone initState "f.pdf" "topics" "./e" none (1 / 2) rfl rfl⟩

/-- C7: process_document fails fast with a descriptive error when the
extraction collaborator reports success=false (the state is returned
unchanged) or when chunking the extracted text yields zero chunks (only
raw_text and chunks are updated); in both cases the outcome does not
depend on the store builder `create`, which is universally quantified and
absent from the right-hand sides — no vector store is built, the
vector_store field keeps its previous value, and no selection is
attempted. -/
theorem spec_c7
    (extract : String → String → ExtractionResult)
    (create : List String → Option String → Except String SearchBackend)
    (st : PipelineState) (fp topics folder : String) (persist : Option String) (t : Rat) :
    ((extract fp folder).success = false →
      processDocument extract create st fp topics folder persist t =
        (st, .error "RAG Pipeline failed: Failed to extract text from PDF")) ∧
    ((extract fp folder).success = true →
      get_text_chunks (extract fp folder).text = [] →
      processDocument extract create st fp topics folder persist t =
        ({ st with raw_text := (extract fp folder).text, chunks := [] },
          .error "RAG Pipeline failed: No text chunks created")) := by
  constructor
  · intro h
    simp [processDocument, h]
  · intro hs hc
    simp [processDocument, hs, hc]

theorem spec_c7_witness :
    processDocument extractFailW buildNone initState "f.pdf" "topics" "./e" none (1 / 2) =
      (initState, .error "RAG Pipeline failed: Failed to extract text from PDF") ∧
    processDocument extractEmpty buildNone initState "f.pdf" "topics" "./e" none (1 / 2) =
      ({ initState with raw_text := "", chunks := [] },
        .error "RAG Pipeline failed: No text chunks created") :=
  ⟨(spec_c7 extractFailW buildNone initState "f.pdf" "topics" "./e" none (1 / 2)).1 rfl,
   (spec_c7 extractEmpty buildNone initState "f.pdf" "topics" "./e" none (1 / 2)).2 rfl rfl⟩

/-- C8: a query issued while the vector store is uninitialized — in
particular in the freshly-initialized state — raises the
IndexNotBuilt-style error "Vector store not initialized" to the caller
instead of being absorbed by the search-failure fallback. -/
theorem spec_c8 (st : PipelineState) (query : String) (threshold : Rat)
    (h : st.vector_store = none) :
    query_vector_store st query threshold = .error "Vector store not initialized" ∧
    initState.vector_store = none := by
  constructor
  · unfold query_vector_store
    rw [h]
    exact getAll_none st.chunks query threshold
  · rfl

theorem spec_c8_witness :
    query_vector_store initState "q" (1 / 2) = .error "Vector store not initialized" ∧
    initState.vector_store = none :=
  spec_c8 initState "q" (1 / 2) rfl

/-- Concrete scored candidates for a two-chunk document. -/
def twoDocs : List (Doc × Rat) := [(⟨"P"⟩, 0), (⟨"Q"⟩, 1 / 5)]

/-- Concrete backend over a two-chunk document; both chunks score above
every threshold of interest. -/
def twoBackend : SearchBackend :=
  { similarity_search_with_score := fun _ _ => .ok twoDocs
    similarity_search := fun _ _ => .ok [⟨"P"⟩, ⟨"Q"⟩] }

/-- C10: for a pipeline whose processed document produced fewer than 3
chunks, any selection with a threshold strictly greater than 3/10 returns
the result computed at threshold 3/10, regardless of the caller threshold:
when the scored search succeeds, at most chunks_count candidates exist, so
fewer than 3 survive filtering even if all pass, and the relaxation retry
fires; when it fails, both thresholds take the same fallback. -/
theorem spec_c10 (vs : SearchBackend) (chunks : List String) (query : String) (t : Rat)
    (hlen : chunks.length < 3) (ht : (3 : Rat) / 10 < t)
    (hbound : ∀ results,
      vs.similarity_search_with_score query (min chunks.length 100) = .ok results →
      results.length ≤ chunks.length) :
    getAllRelevantContent (some vs) chunks query t =
      getAllRelevantContent (some vs) chunks query (3 / 10) := by
  rw [getAll_floor, getAll_some_eq]
  cases hs : vs.similarity_search_with_score query (min chunks.length 100) with
  | error e =>
    unfold selectOnce
    rw [hs]
  | ok results =>
    dsimp only
    have hr : results.length ≤ chunks.length := hbound results hs
    have hcond :
        (sortBySimilarityDesc (keepAboveThreshold t results)).length < 3 ∧
          (3 : Rat) / 10 < t := by
      refine ⟨?_, ht⟩
      have hk := keepAboveThreshold_length_le t results
      rw [sortBySimilarityDesc_length]
      omega
    rw [if_pos hcond]

theorem spec_c10_witness :
    getAllRelevantContent (some twoBackend) ["P", "Q"] "q" (1 / 2) =
      getAllRelevantContent (some twoBackend) ["P", "Q"] "q" (3 / 10) :=
  spec_c10 twoBackend ["P", "Q"] "q" (1 / 2) (by decide) (by norm_num)
    (fun results h => by
      simp only [twoBackend, Except.ok.injEq] at h
      subst h
      decide)

/-- Extraction collaborator producing document one. -/
def extractDoc1 : String → String → ExtractionResult :=
  fun _ _ => ⟨true, "doc one text", "out1.txt"⟩

/-- Extraction collaborator producing document two. -/
def extractDoc2 : String → String → ExtractionResult :=
  fun _ _ => ⟨true, "doc two text", "out2.txt"⟩

/-- Store builder that succeeds with `twoBackend`. -/
def buildOk : List String → Option String → Except String SearchBackend :=
  fun _ _ => .ok twoBackend

/-- Store builder that fails, as `create_vector_store` does when the
embedding backend raises (`src/embedding.py` lines 77-81 re-raise). -/
def buildFail : List String → Option String → Except String SearchBackend :=
  fun _ _ => .error "embedding backend unavailable"

/-- Pipeline state after a successful run on document one. -/
def c9State1 : PipelineState :=
  (processDocument extractDoc1 buildOk initState "a.pdf" "tops" "./e" none (1 / 2)).1

/-- Outcome of a second run, on document two, whose store build fails. -/
def c9Run2 : PipelineState × Except String ProcessResult :=
  processDocument extractDoc2 buildFail c9State1 "b.pdf" "tops" "./e" none (1 / 2)

theorem twoKeptHalf :
    keepAboveThreshold (1 / 2) twoDocs = [⟨"P", 1, 0⟩, ⟨"Q", 9 / 10, 1 / 5⟩] := by
  norm_num [keepAboveThreshold, toRelevant, twoDocs, similarityOfDistance, List.filter]

theorem twoKeptFloor :
    keepAboveThreshold (3 / 10) twoDocs = [⟨"P", 1, 0⟩, ⟨"Q", 9 / 10, 1 / 5⟩] := by
  norm_num [keepAboveThreshold, toRelevant, twoDocs, similarityOfDistance, List.filter]

theorem twoSorted :
    sortBySimilarityDesc [⟨"P", 1, 0⟩, ⟨"Q", 9 / 10, 1 / 5⟩] =
      [⟨"P", 1, 0⟩, ⟨"Q", 9 / 10, 1 / 5⟩] := by
  norm_num [sortBySimilarityDesc, List.insertionSort, List.orderedInsert, simGE]

theorem c9getAllHalf :
    getAllRelevantContent (some twoBackend) ["doc one text"] "tops" (1 / 2) =
      .ok ["P", "Q"] := by
  have hs : twoBackend.similarity_search_with_score "tops"
      (min (["doc one text"] : List String).length 100) = .ok twoDocs := rfl
  rw [getAll_some_eq, hs]
  dsimp only
  have hc : (sortBySimilarityDesc (keepAboveThreshold (1 / 2) twoDocs)).length < 3 ∧
      (3 : Rat) / 10 < 1 / 2 := by
    refine ⟨?_, by norm_num⟩
    rw [sortBySimilarityDesc_length, twoKeptHalf]
    norm_num
  rw [if_pos hc]
  unfold selectOnce
  rw [hs]
  dsimp only
  rw [twoKeptFloor, twoSorted]
  rfl

theorem c9State1_eq :
    c9State1 =
      { vector_store := some twoBackend
        chunks := ["doc one text"]
        raw_text := "doc one text" } := by
  have hch : get_text_chunks "doc one text" = ["doc one text"] := rfl
  unfold c9State1 processDocument
  simp [-one_div, extractDoc1, buildOk, hch, c9getAllHalf]

theorem c9Run2_eq :
    c9Run2 =
      ({ c9State1 with raw_text := "doc two text", chunks := ["doc two text"] },
        .error "RAG Pipeline failed: embedding backend unavailable") := by
  have hch : get_text_chunks "doc two text" = ["doc two text"] := rfl
  unfold c9Run2 processDocument
  simp [extractDoc2, buildFail, hch]

/-- C9 is refuted: after a successful run on document one, a second
process_document call on document two that fails while building the vector
store leaves raw_text and chunks holding document-two values while
vector_store still holds the document-one index — after that failing call
the state is a mixture of values from two different documents. -/
theorem spec_c9_counterexample :
    c9State1.raw_text = "doc one text" ∧
    c9State1.vector_store = some twoBackend ∧
    c9Run2.2 = .error "RAG Pipeline failed: embedding backend unavailable" ∧
    c9Run2.1.raw_text = "doc two text" ∧
    c9Run2.1.chunks = ["doc two text"] ∧
    c9Run2.1.vector_store = some twoBackend := by
  rw [c9Run2_eq, c9State1_eq]
  exact ⟨rfl, rfl, rfl, rfl, rfl, rfl⟩

/-- C9 amended: the pipeline state is created empty; a successful
process_document call replaces it wholesale with values of the current
document, and a call that fails at extraction leaves it untouched; but a
call that fails after extraction — here, at the vector-store build — leaves
a mixture: raw_text and chunks already hold the new document values while
vector_store keeps its previous value. -/
theorem spec_c9
    (extract : String → String → ExtractionResult)
    (create : List String → Option String → Except String SearchBackend)
    (st : PipelineState) (fp topics folder : String) (persist : Option String) (t : Rat) :
    initState = { vector_store := none, chunks := [], raw_text := "" } ∧
    (∀ vs, (extract fp folder).success = true →
      get_text_chunks (extract fp folder).text ≠ [] →
      create (get_text_chunks (extract fp folder).text) persist = .ok vs →
      (processDocument extract create st fp topics folder persist t).1 =
        { vector_store := some vs
          chunks := get_text_chunks (extract fp folder).text
          raw_text := (extract fp folder).text }) ∧
    ((extract fp folder).success = false →
      (processDocument extract create st fp topics folder persist t).1 = st) ∧
    (∀ e, (extract fp folder).success = true →
      get_text_chunks (extract fp folder).text ≠ [] →
      create (get_text_chunks (extract fp folder).text) persist = .error e →
      (processDocument extract create st fp topics folder persist t).1 =
        { st with raw_text := (extract fp folder).text
                  chunks := get_text_chunks (extract fp folder).text }) := by
  refine ⟨rfl, fun vs hs hc hb => ?_, fun h => by simp [processDocument, h],
    fun e hs hc hb => by simp [processDocument, hs, hc, hb]⟩
  cases hg : getAllRelevantContent (some vs) (get_text_chunks (extract fp folder).text)
      topics t with
  | ok r => simp [processDocument, hs, hc, hb, hg]
  | error e2 => simp [processDocument, hs, hc, hb, hg]

theorem spec_c9_witness :
    (processDocument extractDoc1 buildOk initState "a.pdf" "tops" "./e" none (1 / 2)).1 =
      { vector_store := some twoBackend
        chunks := ["doc one text"]
        raw_text := "doc one text" } ∧
    (processDocument extractDoc2 buildFail c9State1 "b.pdf" "tops" "./e" none (1 / 2)).1 =
      { c9State1 with raw_text := "doc two text", chunks := ["doc two text"] } :=
  ⟨(spec_c9 extractDoc1 buildOk initState "a.pdf" "tops" "./e" none (1 / 2)).2.1 twoBackend rfl
      (by decide) rfl,
   (spec_c9 extractDoc2 buildFail c9State1 "b.pdf" "tops" "./e" none (1 / 2)).2.2.2
      "embedding backend unavailable" rfl (by decide) rfl⟩

end RAGStudyGuide
